import Mathlib

/-!
Shallow embedding of the Beelee backend (src/server.js): credential store,
session store, token service and request gate, with the route handlers that
act on them.  JavaScript objects used as string-keyed maps are embedded as
association lists; a JS field that may be absent is an `Option`; a JS value
whose shape is unconstrained (the basket field of a POST /api/basket body)
is a small JSON-value type.  The handlers are pure functions from the store
state and the request data to the new state and the response.
-/

namespace Beelee

/-- A credential-store record: `{ id, passwordHash, name }` (server.js users). -/
structure UserRec where
  id : String
  passwordHash : String
  name : String
deriving DecidableEq

/-- A recipe: required-by-spec `id` field (absent in JS is `none`), with the
rest of the object kept opaque. -/
structure Recipe where
  id : Option String
  body : String
deriving DecidableEq

/-- The JS value stored in `session.basket`: an array of (opaque) items, the
JS `undefined`, or some other non-array JSON value. -/
inductive JsonVal where
  | arr (items : List String)
  | undef
  | other (v : String)
deriving DecidableEq

/-- A per-user session record `{ recipes, basket }` (server.js sessions). -/
structure UserSession where
  recipes : List Recipe
  basket : JsonVal
deriving DecidableEq

/-- The sessions table: JS object keyed by user id. -/
abbrev Sessions := List (String × UserSession)

/-- The users table: JS object keyed by lowercased username. -/
abbrev Users := List (String × UserRec)

/-- JS property read `obj[k]`: `none` models `undefined`. -/
def lookupKey (k : String) : List (String × α) → Option α
  | [] => none
  | (k', v) :: rest => if k' = k then some v else lookupKey k rest

/-- JS property write `obj[k] = v`. -/
def setKey (k : String) (v : α) : List (String × α) → List (String × α)
  | [] => [(k, v)]
  | (k', v') :: rest => if k' = k then (k, v) :: rest else (k', v') :: setKey k v rest

theorem lookupKey_setKey_self (k : String) (v : α) (m : List (String × α)) :
    lookupKey k (setKey k v m) = some v := by
  induction m with
  | nil => simp [lookupKey, setKey]
  | cons p rest ih =>
    obtain ⟨k', v'⟩ := p
    by_cases h : k' = k
    · simp [lookupKey, setKey, h]
    · simp [lookupKey, setKey, h, ih]

/-! ### Token service

The `jsonwebtoken` library is an external dependency, not part of this
repository's source; its behaviour is modelled from the spec. -/

/-- A token payload `{ userId, username, exp }`; `exp` is the expiry time in
seconds (issue time plus seven days). -/
structure JwtPayload where
  userId : String
  username : String
  exp : Nat
deriving DecidableEq

/-- A signed token: payload plus signature over the payload. -/
structure JwtToken where
  payload : JwtPayload
  sig : String
deriving DecidableEq

/-- Modelled from the spec: the library's keyed signature over the payload,
a deterministic function of the shared secret and the payload (the spec:
tokens are "signed with a shared secret"). -/
def jwtMac (secret : String) (p : JwtPayload) : String :=
  secret ++ ":" ++ toString p.userId.length ++ ":" ++ p.userId ++ ":" ++ p.username
    ++ ":" ++ toString p.exp

/-- Seven days in seconds, the `expiresIn: 7d` of server.js line 132. -/
def sevenDays : Nat := 7 * 24 * 60 * 60

/-- Modelled from the spec: `jwt.sign({userId, username}, secret, {expiresIn: 7d})`
signs the payload with expiry seven days after issue time. -/
def jwtSign (secret uid uname : String) (now : Nat) : JwtToken :=
  let p : JwtPayload := ⟨uid, uname, now + sevenDays⟩
  ⟨p, jwtMac secret p⟩

/-- Modelled from the spec: `jwt.verify` "checks signature integrity and
expiry; any failure ... collapses to a single Invalid outcome"; a token is
valid iff its signature verifies under the secret and the current time is
before `exp`.  `none` is the Invalid outcome. -/
def jwtVerify (secret : String) (now : Nat) (tk : JwtToken) : Option JwtPayload :=
  if tk.sig = jwtMac secret tk.payload ∧ now < tk.payload.exp then some tk.payload else none

/-! ### Request gate (authenticateToken middleware, server.js lines 89-104) -/

/-- JS `String.prototype.split(' ')` on the character list: split at every
single space, keeping empty fragments (so `"".split(' ')` is `[""]`). -/
def splitChars : List Char → List (List Char)
  | [] => [[]]
  | c :: rest =>
    let groups := splitChars rest
    if c = ' ' then [] :: groups
    else
      match groups with
      | [] => [[c]]
      | g :: gs => (c :: g) :: gs

/-- JS `s.split(' ')`. -/
def splitOnSpace (s : String) : List String :=
  (splitChars s.data).map (fun l => ⟨l⟩)

/-- `authHeader && authHeader.split(' ')[1]` followed by the falsy check
`if (!token)`: extracts the bearer token from the Authorization header,
`none` when the header is absent or yields no (or an empty) token. -/
def extractToken (authHeader : Option String) : Option String :=
  match authHeader with
  | none => none
  | some h =>
    match (splitOnSpace h).get? 1 with
    | none => none
    | some t => if t = "" then none else some t

/-- Outcome of the middleware: a rejection response, or proceeding to the
handler with the decoded identity attached as `req.user`. -/
inductive AuthOutcome where
  | reject (status : Nat) (error : String)
  | proceed (user : JwtPayload)
deriving DecidableEq

/-- The authenticateToken middleware, parametric in the token verification
function it delegates to (`jwt.verify` with the secret and clock applied):
no token gives 401, failed verification gives 403, otherwise the decoded
payload is attached and the handler proceeds. -/
def authenticateToken (verifyFn : String → Option JwtPayload)
    (authHeader : Option String) : AuthOutcome :=
  match extractToken authHeader with
  | none => .reject 401 "Access denied. No token provided."
  | some t =>
    match verifyFn t with
    | none => .reject 403 "Invalid or expired token"
    | some u => .proceed u

/-! ### Login handler (server.js lines 109-142) -/

/-- JS `String.prototype.toLowerCase()` (ASCII), character by character. -/
def toLowerCase (s : String) : String :=
  ⟨s.data.map Char.toLower⟩

/-- Response of POST /api/login: an error status with message, or 200 with
the token and the public user fields. -/
inductive LoginResult where
  | err (status : Nat) (message : String)
  | ok (token : JwtToken) (id name : String)
deriving DecidableEq

/-- POST /api/login.  `username`/`password` are the (possibly absent) body
fields; the JS falsy test `!username || !password` also catches the empty
string.  `compare` is `bcrypt.compareSync` (external library), passed as a
parameter. -/
def login (usersTbl : Users) (compare : String → String → Bool)
    (secret : String) (now : Nat) (username password : Option String) : LoginResult :=
  match username, password with
  | some uname, some pw =>
    if uname = "" ∨ pw = "" then .err 400 "Username and password required"
    else
      match lookupKey (toLowerCase uname) usersTbl with
      | none => .err 401 "Invalid credentials"
      | some u =>
        if compare pw u.passwordHash then .ok (jwtSign secret u.id u.id now) u.id u.name
        else .err 401 "Invalid credentials"
  | _, _ => .err 400 "Username and password required"

/-! ### Session store and handlers (server.js lines 76-85 and 155-208) -/

/-- The freshly created session `{ recipes: [], basket: [] }`. -/
def emptySession : UserSession := ⟨[], .arr []⟩

/-- getUserSession (server.js lines 76-85): returns the user's session,
lazily creating and persisting an empty one when absent. -/
def getUserSession (st : Sessions) (uid : String) : UserSession × Sessions :=
  match lookupKey uid st with
  | some s => (s, st)
  | none => (emptySession, setKey uid emptySession st)

/-- `session.recipes.findIndex(p)` (server.js line 169): index of the first
element satisfying `p`, `none` for JS -1. -/
def findIndex (p : Recipe → Bool) : List Recipe → Option Nat
  | [] => none
  | r :: rest => if p r then some 0 else (findIndex p rest).map (· + 1)

/-- The recipe-list update of POST /api/recipes: replace the first entry
whose `id` equals the new recipe's `id` (JS `===`; two absent ids compare
equal), else append. -/
def upsertList (l : List Recipe) (r : Recipe) : List Recipe :=
  match findIndex (fun e => decide (e.id = r.id)) l with
  | some i => l.set i r
  | none => l ++ [r]

/-- POST /api/recipes (server.js lines 164-178): upserts the request body
into the session's recipe list, persists, and replies
`200 {success: true, recipe}`.  There is no validation of the body. -/
def postRecipes (st : Sessions) (uid : String) (r : Recipe) : Sessions × Nat × Recipe :=
  let (s, st1) := getUserSession st uid
  (setKey uid { s with recipes := upsertList s.recipes r } st1, 200, r)

/-- DELETE /api/recipes/:id (server.js lines 181-186): filters out every
recipe whose id strictly equals the path parameter, persists, replies
`200 {success: true}`. -/
def deleteRecipe (st : Sessions) (uid rid : String) : Sessions × Nat × Bool :=
  let (s, st1) := getUserSession st uid
  (setKey uid { s with recipes := s.recipes.filter (fun r => decide (r.id ≠ some rid)) } st1,
    200, true)

/-- GET /api/basket (server.js lines 189-192): replies with the session's
basket value as stored. -/
def getBasket (st : Sessions) (uid : String) : Sessions × Nat × JsonVal :=
  let (s, st1) := getUserSession st uid
  (st1, 200, s.basket)

/-- POST /api/basket (server.js lines 195-200): `session.basket =
req.body.basket` with no validation whatsoever, persists, replies
`200 {success: true}`. -/
def postBasket (st : Sessions) (uid : String) (basketField : JsonVal) :
    Sessions × Nat × Bool :=
  let (s, st1) := getUserSession st uid
  (setKey uid { s with basket := basketField } st1, 200, true)

/-- GET /api/verify handler body (server.js lines 145-153): reads
`users[req.user.userId]` and dereferences `.id` and `.name` on it without a
guard; the absent-user case is the JS TypeError, embedded as `none`. -/
def verifyHandler (usersTbl : Users) (p : JwtPayload) : Option (String × String) :=
  match lookupKey p.userId usersTbl with
  | some u => some (u.id, u.name)
  | none => none

/-- Observer: the recipe list the sessions table currently holds for a user
(empty when the user has no record). -/
def recipesOf (st : Sessions) (uid : String) : List Recipe :=
  match lookupKey uid st with
  | some s => s.recipes
  | none => []

/-- Observer: the basket value the sessions table currently holds for a user
(the empty array when the user has no record, as getUserSession would create). -/
def basketOf (st : Sessions) (uid : String) : JsonVal :=
  match lookupKey uid st with
  | some s => s.basket
  | none => .arr []

/-- Whether a JSON value is an (ordered) list. -/
def JsonVal.isList : JsonVal → Bool
  | .arr _ => true
  | _ => false

/-! ### Bridge lemmas: handlers against the observers -/

theorem recipesOf_postRecipes (st : Sessions) (uid : String) (r : Recipe) :
    recipesOf (postRecipes st uid r).1 uid = upsertList (recipesOf st uid) r := by
  unfold postRecipes getUserSession recipesOf
  cases h : lookupKey uid st <;> simp [h, lookupKey_setKey_self, emptySession]

theorem recipesOf_deleteRecipe (st : Sessions) (uid rid : String) :
    recipesOf (deleteRecipe st uid rid).1 uid
      = (recipesOf st uid).filter (fun r => decide (r.id ≠ some rid)) := by
  unfold deleteRecipe getUserSession recipesOf
  cases h : lookupKey uid st <;> simp [h, lookupKey_setKey_self, emptySession]

theorem getBasket_eq_basketOf (st : Sessions) (uid : String) :
    (getBasket st uid).2.2 = basketOf st uid := by
  unfold getBasket getUserSession basketOf
  cases h : lookupKey uid st <;> simp [h, emptySession]

theorem basketOf_postBasket (st : Sessions) (uid : String) (v : JsonVal) :
    basketOf (postBasket st uid v).1 uid = v := by
  unfold postBasket getUserSession basketOf
  cases h : lookupKey uid st <;> simp [h, lookupKey_setKey_self]

/-! ### Lemmas on the recipe-list upsert -/

theorem upsertList_nil (r : Recipe) : upsertList [] r = [r] := rfl

theorem upsertList_cons_eq (a : Recipe) (l : List Recipe) (r : Recipe)
    (h : a.id = r.id) : upsertList (a :: l) r = r :: l := by
  simp [upsertList, findIndex, h]

theorem upsertList_cons_ne (a : Recipe) (l : List Recipe) (r : Recipe)
    (h : a.id ≠ r.id) : upsertList (a :: l) r = a :: upsertList l r := by
  unfold upsertList
  simp only [findIndex, decide_eq_true_eq, if_neg h]
  cases hf : findIndex (fun e => decide (e.id = r.id)) l <;> simp [hf, List.set]

theorem mem_upsertList (l : List Recipe) (r b : Recipe)
    (hb : b ∈ upsertList l r) : b = r ∨ b ∈ l := by
  induction l with
  | nil => simp [upsertList_nil] at hb; exact Or.inl hb
  | cons a l ih =>
    by_cases h : a.id = r.id
    · rw [upsertList_cons_eq a l r h] at hb
      rcases List.mem_cons.mp hb with h1 | h1
      · exact Or.inl h1
      · exact Or.inr (List.mem_cons_of_mem a h1)
    · rw [upsertList_cons_ne a l r h] at hb
      rcases List.mem_cons.mp hb with h1 | h1
      · exact Or.inr (h1 ▸ List.mem_cons_self a l)
      · rcases ih h1 with h2 | h2
        · exact Or.inl h2
        · exact Or.inr (List.mem_cons_of_mem a h2)

theorem upsertList_append (l : List Recipe) (r : Recipe)
    (h : ∀ e ∈ l, e.id ≠ r.id) : upsertList l r = l ++ [r] := by
  induction l with
  | nil => simp [upsertList_nil]
  | cons a l ih =>
    rw [upsertList_cons_ne a l r (h a (List.mem_cons_self a l))]
    rw [ih (fun e he => h e (List.mem_cons_of_mem a he))]
    simp

theorem upsertList_replace_first (l1 l2 : List Recipe) (e r : Recipe)
    (he : e.id = r.id) (h1 : ∀ x ∈ l1, x.id ≠ r.id) :
    upsertList (l1 ++ e :: l2) r = l1 ++ r :: l2 := by
  induction l1 with
  | nil => simpa using upsertList_cons_eq e l2 r he
  | cons a l1 ih =>
    have ha : a.id ≠ r.id := h1 a (List.mem_cons_self a l1)
    rw [List.cons_append, upsertList_cons_ne a (l1 ++ e :: l2) r ha,
      ih (fun x hx => h1 x (List.mem_cons_of_mem a hx)), List.cons_append]

theorem upsertList_pairwise (l : List Recipe) (r : Recipe)
    (h : l.Pairwise (fun a b => a.id ≠ b.id)) :
    (upsertList l r).Pairwise (fun a b => a.id ≠ b.id) := by
  induction l with
  | nil => simp [upsertList_nil]
  | cons a l ih =>
    rw [List.pairwise_cons] at h
    by_cases hid : a.id = r.id
    · rw [upsertList_cons_eq a l r hid, List.pairwise_cons]
      exact ⟨fun b hb => hid ▸ h.1 b hb, h.2⟩
    · rw [upsertList_cons_ne a l r hid, List.pairwise_cons]
      refine ⟨fun b hb => ?_, ih h.2⟩
      rcases mem_upsertList l r b hb with rfl | hbl
      · exact hid
      · exact h.1 b hbl

theorem filter_upsertList (l : List Recipe) (r : Recipe)
    (h : l.Pairwise (fun a b => a.id ≠ b.id)) :
    (upsertList l r).filter (fun e => decide (e.id = r.id)) = [r] := by
  induction l with
  | nil => simp [upsertList_nil]
  | cons a l ih =>
    rw [List.pairwise_cons] at h
    by_cases hid : a.id = r.id
    · rw [upsertList_cons_eq a l r hid]
      have hnone : l.filter (fun e => decide (e.id = r.id)) = [] := by
        rw [List.filter_eq_nil_iff]
        intro e he
        simpa using hid ▸ (h.1 e he).symm
      simp [hnone]
    · rw [upsertList_cons_ne a l r hid]
      simpa [hid] using ih h.2

/-! ### Claim theorems -/

/-- C1: issuing a token via issue(userId, username) and immediately verifying
it returns the same userId and username that were issued; every token whose
signature does not verify under the secret returns Invalid (`none`); every
token whose expiry is at or before the current time returns Invalid. -/
theorem jwt_issue_verify_roundtrip_and_invalid (secret uid uname : String) (now : Nat) :
    (jwtVerify secret now (jwtSign secret uid uname now)).map (fun p => (p.userId, p.username))
        = some (uid, uname)
    ∧ (∀ (tk : JwtToken) (t : Nat), tk.sig ≠ jwtMac secret tk.payload →
        jwtVerify secret t tk = none)
    ∧ (∀ (tk : JwtToken) (t : Nat), tk.payload.exp ≤ t → jwtVerify secret t tk = none) := by
  refine ⟨?_, ?_, ?_⟩
  · have h : now < now + sevenDays := Nat.lt_add_of_pos_right (by simp [sevenDays])
    simp [jwtVerify, jwtSign, h]
  · intro tk t h
    simp [jwtVerify, h]
  · intro tk t h
    simp [jwtVerify, Nat.not_lt.mpr h]

/-- Witness for C1: a concrete round trip, a concrete forged-signature token,
and a concrete expired token. -/
theorem jwt_issue_verify_roundtrip_and_invalid_witness :
    (jwtVerify "s" 0 (jwtSign "s" "alice" "alice" 0)).map (fun p => (p.userId, p.username))
        = some ("alice", "alice")
    ∧ jwtVerify "s" 5 ⟨⟨"alice", "alice", 100⟩, "forged"⟩ = none
    ∧ jwtVerify "s" 604800 (jwtSign "s" "alice" "alice" 0) = none :=
  ⟨(jwt_issue_verify_roundtrip_and_invalid "s" "alice" "alice" 0).1,
   (jwt_issue_verify_roundtrip_and_invalid "s" "alice" "alice" 0).2.1
     ⟨⟨"alice", "alice", 100⟩, "forged"⟩ 5 (by decide),
   (jwt_issue_verify_roundtrip_and_invalid "s" "alice" "alice" 0).2.2
     (jwtSign "s" "alice" "alice" 0) 604800 (by decide)⟩

/-- C2: the request gate: an absent Authorization header, or one that yields
no token, is rejected 401 (missing token); a present token that fails
verification is rejected 403; otherwise the decoded identity is attached and
the handler proceeds. -/
theorem authenticateToken_gate_behavior (verifyFn : String → Option JwtPayload)
    (authHeader : Option String) :
    (authHeader = none → authenticateToken verifyFn authHeader
        = .reject 401 "Access denied. No token provided.")
    ∧ (extractToken authHeader = none → authenticateToken verifyFn authHeader
        = .reject 401 "Access denied. No token provided.")
    ∧ (∀ t, extractToken authHeader = some t → verifyFn t = none →
        authenticateToken verifyFn authHeader = .reject 403 "Invalid or expired token")
    ∧ (∀ t u, extractToken authHeader = some t → verifyFn t = some u →
        authenticateToken verifyFn authHeader = .proceed u) := by
  refine ⟨?_, ?_, ?_, ?_⟩
  · rintro rfl; rfl
  · intro h; simp [authenticateToken, h]
  · intro t h hv; simp [authenticateToken, h, hv]
  · intro t u h hv; simp [authenticateToken, h, hv]

/-- Witness for C2: the four gate outcomes at concrete headers and
verification functions. -/
theorem authenticateToken_gate_behavior_witness :
    authenticateToken (fun _ => some ⟨"alice", "alice", 99⟩) (some "Bearer tok")
        = .proceed ⟨"alice", "alice", 99⟩
    ∧ authenticateToken (fun _ => none) (some "Bearer tok")
        = .reject 403 "Invalid or expired token"
    ∧ authenticateToken (fun _ => none) (some "Bearer")
        = .reject 401 "Access denied. No token provided."
    ∧ authenticateToken (fun _ => none) none
        = .reject 401 "Access denied. No token provided." :=
  ⟨(authenticateToken_gate_behavior (fun _ => some ⟨"alice", "alice", 99⟩)
      (some "Bearer tok")).2.2.2 "tok" ⟨"alice", "alice", 99⟩ (by decide) rfl,
   (authenticateToken_gate_behavior (fun _ => none) (some "Bearer tok")).2.2.1 "tok"
     (by decide) rfl,
   (authenticateToken_gate_behavior (fun _ => none) (some "Bearer")).2.1 (by decide),
   (authenticateToken_gate_behavior (fun _ => none) none).1 rfl⟩

/-- C3: with both login fields present, an unknown username and a known
username with a wrong password both produce the 401 response with the same
generic body, so the two failure causes are observably identical. -/
theorem login_failure_indistinguishable (tbl : Users) (compare : String → String → Bool)
    (secret : String) (now : Nat) (uname1 pw1 uname2 pw2 : String) (u : UserRec)
    (h1 : uname1 ≠ "") (h2 : pw1 ≠ "") (h3 : uname2 ≠ "") (h4 : pw2 ≠ "")
    (hno : lookupKey (toLowerCase uname1) tbl = none)
    (hyes : lookupKey (toLowerCase uname2) tbl = some u)
    (hpw : compare pw2 u.passwordHash = false) :
    login tbl compare secret now (some uname1) (some pw1) = .err 401 "Invalid credentials"
    ∧ login tbl compare secret now (some uname2) (some pw2) = .err 401 "Invalid credentials"
    ∧ login tbl compare secret now (some uname1) (some pw1)
        = login tbl compare secret now (some uname2) (some pw2) := by
  refine ⟨?_, ?_, ?_⟩
  · simp [login, h1, h2, hno]
  · simp [login, h3, h4, hyes, hpw]
  · simp [login, h1, h2, h3, h4, hno, hyes, hpw]

/-- Witness for C3: a concrete one-user table, an unknown-user run and a
wrong-password run, with equal observable responses. -/
theorem login_failure_indistinguishable_witness :
    login [("admin", ⟨"admin", "hash1", "Admin User"⟩)] (fun _ _ => false) "s" 0
        (some "ghost") (some "x") = .err 401 "Invalid credentials"
    ∧ login [("admin", ⟨"admin", "hash1", "Admin User"⟩)] (fun _ _ => false) "s" 0
        (some "admin") (some "y") = .err 401 "Invalid credentials"
    ∧ login [("admin", ⟨"admin", "hash1", "Admin User"⟩)] (fun _ _ => false) "s" 0
        (some "ghost") (some "x")
      = login [("admin", ⟨"admin", "hash1", "Admin User"⟩)] (fun _ _ => false) "s" 0
        (some "admin") (some "y") :=
  login_failure_indistinguishable [("admin", ⟨"admin", "hash1", "Admin User"⟩)]
    (fun _ _ => false) "s" 0 "ghost" "x" "admin" "y" ⟨"admin", "hash1", "Admin User"⟩
    (by decide) (by decide) (by decide) (by decide) (by decide) (by decide) rfl

/-- C4 counterexample: a recipe lacking an `id` is not rejected: on an empty
store, POST /api/recipes with an id-less body replies 200 (not 400) and the
user's recipe list changes from empty to holding that body. -/
theorem postRecipes_missing_id_counterexample :
    (postRecipes [] "u" ⟨none, "pancakes"⟩).2.1 = 200
    ∧ (postRecipes [] "u" ⟨none, "pancakes"⟩).1
        = [("u", ⟨[⟨none, "pancakes"⟩], .arr []⟩)]
    ∧ recipesOf (postRecipes [] "u" ⟨none, "pancakes"⟩).1 "u" ≠ recipesOf [] "u" := by
  decide

/-- C4 (amended): POST /api/recipes performs no validation of the body: for
every recipe, with or without an `id`, the handler replies 200 and returns
the recipe; when no current entry has the recipe's id it is appended, and
when the list splits around its first id match that entry is replaced in
place. -/
theorem postRecipes_upsert_no_validation (st : Sessions) (uid : String) (r : Recipe) :
    (postRecipes st uid r).2.1 = 200
    ∧ (postRecipes st uid r).2.2 = r
    ∧ ((∀ e ∈ recipesOf st uid, e.id ≠ r.id) →
        recipesOf (postRecipes st uid r).1 uid = recipesOf st uid ++ [r])
    ∧ (∀ l1 e l2, recipesOf st uid = l1 ++ e :: l2 → e.id = r.id →
        (∀ x ∈ l1, x.id ≠ r.id) →
        recipesOf (postRecipes st uid r).1 uid = l1 ++ r :: l2) := by
  refine ⟨rfl, rfl, ?_, ?_⟩
  · intro h
    rw [recipesOf_postRecipes, upsertList_append _ _ h]
  · intro l1 e l2 hsplit he h1
    rw [recipesOf_postRecipes, hsplit, upsertList_replace_first l1 l2 e r he h1]

/-- Witness for C4 (amended): one append run and one replace-in-place run on
a concrete store. -/
theorem postRecipes_upsert_no_validation_witness :
    (postRecipes [("u", ⟨[⟨some "r1", "old"⟩], .arr []⟩)] "u" ⟨some "r3", "new"⟩).2.1 = 200
    ∧ recipesOf
        (postRecipes [("u", ⟨[⟨some "r1", "old"⟩], .arr []⟩)] "u" ⟨some "r3", "new"⟩).1 "u"
        = [⟨some "r1", "old"⟩] ++ [⟨some "r3", "new"⟩]
    ∧ recipesOf
        (postRecipes [("u", ⟨[⟨some "r1", "old"⟩], .arr []⟩)] "u" ⟨some "r1", "new"⟩).1 "u"
        = [] ++ ⟨some "r1", "new"⟩ :: [] :=
  ⟨(postRecipes_upsert_no_validation [("u", ⟨[⟨some "r1", "old"⟩], .arr []⟩)] "u"
      ⟨some "r3", "new"⟩).1,
   (postRecipes_upsert_no_validation [("u", ⟨[⟨some "r1", "old"⟩], .arr []⟩)] "u"
      ⟨some "r3", "new"⟩).2.2.1 (by decide),
   (postRecipes_upsert_no_validation [("u", ⟨[⟨some "r1", "old"⟩], .arr []⟩)] "u"
      ⟨some "r1", "new"⟩).2.2.2 [] ⟨some "r1", "old"⟩ [] (by decide) (by decide)
      (by decide)⟩

/-- C5: on a recipe list with pairwise-distinct ids, upserting two recipes
sharing one id leaves exactly one entry with that id, holding the second
body; and every single upsert preserves id-distinctness. -/
theorem postRecipes_same_id_once_and_unique (st : Sessions) (uid : String) (r1 r2 : Recipe)
    (hid : r1.id = r2.id)
    (hu : (recipesOf st uid).Pairwise (fun a b => a.id ≠ b.id)) :
    (recipesOf (postRecipes (postRecipes st uid r1).1 uid r2).1 uid).filter
        (fun e => decide (e.id = r2.id)) = [r2]
    ∧ (recipesOf (postRecipes (postRecipes st uid r1).1 uid r2).1 uid).filter
        (fun e => decide (e.id = r1.id)) = [r2]
    ∧ (∀ (r : Recipe) (st2 : Sessions),
        (recipesOf st2 uid).Pairwise (fun a b => a.id ≠ b.id) →
        (recipesOf (postRecipes st2 uid r).1 uid).Pairwise (fun a b => a.id ≠ b.id)) := by
  have hkey : (recipesOf (postRecipes (postRecipes st uid r1).1 uid r2).1 uid).filter
      (fun e => decide (e.id = r2.id)) = [r2] := by
    rw [recipesOf_postRecipes, recipesOf_postRecipes]
    exact filter_upsertList _ r2 (upsertList_pairwise _ r1 hu)
  refine ⟨hkey, ?_, ?_⟩
  · rw [hid]
    exact hkey
  · intro r st2 h2
    rw [recipesOf_postRecipes]
    exact upsertList_pairwise _ r h2

/-- Witness for C5: two upserts of bodies sharing id r1 on an empty store
leave exactly the single second-body entry. -/
theorem postRecipes_same_id_once_and_unique_witness :
    (recipesOf (postRecipes (postRecipes [] "u" ⟨some "r1", "body1"⟩).1 "u"
        ⟨some "r1", "body2"⟩).1 "u").filter (fun e => decide (e.id = some "r1"))
      = [⟨some "r1", "body2"⟩]
    ∧ (recipesOf (postRecipes (postRecipes [] "u" ⟨some "r1", "body1"⟩).1 "u"
        ⟨some "r1", "body2"⟩).1 "u").filter (fun e => decide (e.id = some "r1"))
      = [⟨some "r1", "body2"⟩] :=
  ⟨(postRecipes_same_id_once_and_unique [] "u" ⟨some "r1", "body1"⟩ ⟨some "r1", "body2"⟩
      rfl List.Pairwise.nil).1,
   (postRecipes_same_id_once_and_unique [] "u" ⟨some "r1", "body1"⟩ ⟨some "r1", "body2"⟩
      rfl List.Pairwise.nil).2.1⟩

/-- C6: getUserSession never fails: an existing record is returned with the
table unchanged; otherwise the fresh record `{recipes: [], basket: []}` is
created, persisted under the user id, and returned, and a subsequent call
returns that same record with no further change. -/
theorem getUserSession_total_lazy_create (st : Sessions) (uid : String) :
    (∀ s, lookupKey uid st = some s → getUserSession st uid = (s, st))
    ∧ (lookupKey uid st = none →
        (getUserSession st uid).1 = emptySession
        ∧ lookupKey uid (getUserSession st uid).2 = some emptySession
        ∧ getUserSession (getUserSession st uid).2 uid
            = ((getUserSession st uid).1, (getUserSession st uid).2)) := by
  constructor
  · intro s h
    simp [getUserSession, h]
  · intro h
    refine ⟨?_, ?_, ?_⟩ <;> simp [getUserSession, h, lookupKey_setKey_self]

/-- Witness for C6: a hit on an existing record and a lazy creation on the
empty table, each at a concrete user id. -/
theorem getUserSession_total_lazy_create_witness :
    getUserSession [("u", ⟨[], .arr []⟩)] "u" = (⟨[], .arr []⟩, [("u", ⟨[], .arr []⟩)])
    ∧ ((getUserSession [] "u").1 = emptySession
        ∧ lookupKey "u" (getUserSession [] "u").2 = some emptySession
        ∧ getUserSession (getUserSession [] "u").2 "u"
            = ((getUserSession [] "u").1, (getUserSession [] "u").2)) :=
  ⟨(getUserSession_total_lazy_create [("u", ⟨[], .arr []⟩)] "u").1 ⟨[], .arr []⟩ (by decide),
   (getUserSession_total_lazy_create [] "u").2 rfl⟩

/-- C7: DELETE /api/recipes/:id replies success, leaves no entry with the
given id, is a no-op when nothing matches, and applying it twice yields the
same list as applying it once. -/
theorem deleteRecipe_removes_all_idempotent (st : Sessions) (uid rid : String) :
    (deleteRecipe st uid rid).2.1 = 200
    ∧ (deleteRecipe st uid rid).2.2 = true
    ∧ (∀ e ∈ recipesOf (deleteRecipe st uid rid).1 uid, e.id ≠ some rid)
    ∧ ((∀ e ∈ recipesOf st uid, e.id ≠ some rid) →
        recipesOf (deleteRecipe st uid rid).1 uid = recipesOf st uid)
    ∧ recipesOf (deleteRecipe (deleteRecipe st uid rid).1 uid rid).1 uid
        = recipesOf (deleteRecipe st uid rid).1 uid := by
  refine ⟨rfl, rfl, ?_, ?_, ?_⟩
  · intro e he
    rw [recipesOf_deleteRecipe] at he
    simpa using (List.mem_filter.mp he).2
  · intro h
    rw [recipesOf_deleteRecipe]
    apply List.filter_eq_self.mpr
    intro a ha
    simpa using h a ha
  · rw [recipesOf_deleteRecipe (deleteRecipe st uid rid).1, recipesOf_deleteRecipe]
    apply List.filter_eq_self.mpr
    intro a ha
    exact (List.mem_filter.mp ha).2

/-- Witness for C7: deleting a missing id is a no-op, and a repeated delete
of a present id equals the single delete, on a concrete store. -/
theorem deleteRecipe_removes_all_idempotent_witness :
    (deleteRecipe [("u", ⟨[⟨some "r1", "a"⟩], .arr []⟩)] "u" "missing").2.1 = 200
    ∧ recipesOf (deleteRecipe [("u", ⟨[⟨some "r1", "a"⟩], .arr []⟩)] "u" "missing").1 "u"
        = recipesOf [("u", ⟨[⟨some "r1", "a"⟩], .arr []⟩)] "u"
    ∧ recipesOf (deleteRecipe
          (deleteRecipe [("u", ⟨[⟨some "r1", "a"⟩], .arr []⟩)] "u" "r1").1 "u" "r1").1 "u"
        = recipesOf (deleteRecipe [("u", ⟨[⟨some "r1", "a"⟩], .arr []⟩)] "u" "r1").1 "u" :=
  ⟨(deleteRecipe_removes_all_idempotent [("u", ⟨[⟨some "r1", "a"⟩], .arr []⟩)] "u"
      "missing").1,
   (deleteRecipe_removes_all_idempotent [("u", ⟨[⟨some "r1", "a"⟩], .arr []⟩)] "u"
      "missing").2.2.2.1 (by decide),
   (deleteRecipe_removes_all_idempotent [("u", ⟨[⟨some "r1", "a"⟩], .arr []⟩)] "u"
      "r1").2.2.2.2⟩

/-- C8: POST /api/basket is a wholesale replace with no merge: replacing
with the empty list then reading gives the empty list, and two successive
replaces leave exactly the second list, whatever was there before. -/
theorem basket_wholesale_replace (st : Sessions) (uid : String) (xs ys : List String) :
    (getBasket (postBasket st uid (.arr [])).1 uid).2.2 = .arr []
    ∧ (getBasket (postBasket (postBasket st uid (.arr xs)).1 uid (.arr ys)).1 uid).2.2
        = .arr ys := by
  constructor
  · rw [getBasket_eq_basketOf, basketOf_postBasket]
  · rw [getBasket_eq_basketOf, basketOf_postBasket]

/-- C9 counterexample: a basket update whose body lacks a list-valued
`basket` field stores the JS undefined, and the subsequent GET /api/basket
returns that value, which is not a list. -/
theorem getBasket_non_list_counterexample :
    (getBasket (postBasket [] "u" .undef).1 "u").2.2 = .undef
    ∧ ((getBasket (postBasket [] "u" .undef).1 "u").2.2).isList = false := by
  decide

/-- C9 (amended): GET /api/basket returns exactly whatever value the last
basket update stored, with no validation: the empty list for a fresh user
and a list whenever the stored field was a list, but equally any non-list
value such as the JS undefined. -/
theorem getBasket_returns_stored_value (st : Sessions) (uid : String) :
    (∀ v : JsonVal, (getBasket (postBasket st uid v).1 uid).2.2 = v)
    ∧ (lookupKey uid st = none → (getBasket st uid).2.2 = .arr []) := by
  constructor
  · intro v
    rw [getBasket_eq_basketOf, basketOf_postBasket]
  · intro h
    rw [getBasket_eq_basketOf]
    simp [basketOf, h]

/-- Witness for C9 (amended): a concrete list round trip and a fresh-user
read on the empty table. -/
theorem getBasket_returns_stored_value_witness :
    (getBasket (postBasket [] "u" (.arr ["milk"])).1 "u").2.2 = .arr ["milk"]
    ∧ (getBasket [] "u").2.2 = .arr [] :=
  ⟨(getBasket_returns_stored_value [] "u").1 (.arr ["milk"]),
   (getBasket_returns_stored_value [] "u").2 rfl⟩

/-- C10: the GET /api/verify success branch is total only when the token's
userId is a key of the users table: a token with a valid signature and
unexpired expiry whose userId is absent from the table passes verification,
yet the handler's unguarded read of the user record reaches the absent case
(`none` here, a TypeError dereference in the source). -/
theorem verifyHandler_absent_user_reachable :
    jwtVerify "s" 0 (jwtSign "s" "ghost" "ghost" 0) = some ⟨"ghost", "ghost", 604800⟩
    ∧ lookupKey "ghost" ([("admin", ⟨"admin", "hash1", "Admin User"⟩)] : Users) = none
    ∧ verifyHandler [("admin", ⟨"admin", "hash1", "Admin User"⟩)] ⟨"ghost", "ghost", 604800⟩
        = none := by
  decide

end Beelee
